import Mathlib

/-!
Shallow embedding of the sprite core of `arcade-lib` (`src/arcade.c`,
`arcade.h`).

Modelling conventions:
* C `float` fields are modelled as `ℚ`; the algorithms use only addition,
  comparison and assignment of exact values, and every clamp assigns an
  exact expression, so the control structure is faithfully represented.
* C `int` fields are modelled as `ℤ`; the C `%` and `/` on `int` truncate
  toward zero, which is `Int.tmod` / `Int.tdiv`.
* A C pointer parameter is modelled as `Option _`; `none` is the null
  pointer.  A function that null-checks its pointer is total; a function
  that dereferences its pointer without a check returns `Except Unit _`,
  where `Except.error ()` marks the null dereference.
* A `float` → `int` cast truncates toward zero: `ratTrunc`.
* heap arrays (`uint32_t *pixels`, the group's `sprites`/`types` buffers)
  are modelled as `List` values or total functions from the index;
  out-of-bounds reads, which are undefined behaviour in C, are modelled
  with `List.getD` and only ever used under in-bounds hypotheses.
-/

namespace Arcade

/-- Truncation of a rational toward zero, the semantics of a C
`(int)` cast applied to a `float` value. -/
def ratTrunc (q : ℚ) : ℤ := q.num.tdiv (q.den : ℤ)

/-- `ArcadeSprite` (arcade.h:147): a colour rectangle sprite. -/
structure ArcadeSprite where
  x : ℚ
  y : ℚ
  width : ℚ
  height : ℚ
  vy : ℚ
  vx : ℚ
  color : ℕ
  active : ℤ
deriving DecidableEq, Repr, Inhabited

/-- `ArcadeImageSprite` (arcade.h:173): an image-backed sprite; `pixels`
is the owned RGBA buffer, `none` when the pointer is null. -/
structure ArcadeImageSprite where
  x : ℚ
  y : ℚ
  width : ℚ
  height : ℚ
  vy : ℚ
  vx : ℚ
  pixels : Option (List ℕ)
  image_width : ℤ
  image_height : ℤ
  active : ℤ
deriving DecidableEq, Repr, Inhabited

/-- `ArcadeAnimatedSprite` (arcade.h:200): `frames` models the malloc'd
frame array (`[]` when the pointer is null or empty). -/
structure ArcadeAnimatedSprite where
  frames : List ArcadeImageSprite
  frame_count : ℤ
  current_frame : ℤ
  frame_interval : ℤ
  frame_counter : ℤ
deriving DecidableEq, Repr, Inhabited

/-- `ArcadeAnySprite` (arcade.h:222): the C union together with the
variant actually stored; a tag/union mismatch in `draw_sprite` would
reinterpret memory in C and is modelled as drawing nothing. -/
inductive ArcadeAnySprite where
  | sprite (s : ArcadeSprite)
  | image_sprite (s : ArcadeImageSprite)
deriving DecidableEq, Repr, Inhabited

/-- `SPRITE_COLOR` (arcade.h:96). -/
def SPRITE_COLOR : ℤ := 0

/-- `SPRITE_IMAGE` (arcade.h:97). -/
def SPRITE_IMAGE : ℤ := 1

/-! ## Sprite kinematics (arcade.c:433-475) -/

/-- Body of `move_sprite` (arcade.c:433) after its null/inactive guard:
`vy += gravity; y += vy; x += vx;` then the two sequential clamps. -/
def moveSpriteBody (s : ArcadeSprite) (gravity : ℚ) (window_height : ℤ) :
    ArcadeSprite :=
  let vy1 := s.vy + gravity
  let y1 := s.y + vy1
  let x1 := s.x + s.vx
  let p2 := if y1 < 0 then ((0 : ℚ), (0 : ℚ)) else (y1, vy1)
  let p3 :=
    if p2.1 > (window_height : ℚ) - s.height then
      (((window_height : ℚ) - s.height), (0 : ℚ))
    else p2
  { s with x := x1, y := p3.1, vy := p3.2 }

/-- `move_sprite` (arcade.c:433): static helper, null/inactive guarded. -/
def move_sprite (sprite : Option ArcadeSprite) (gravity : ℚ)
    (window_height : ℤ) : Option ArcadeSprite :=
  match sprite with
  | none => none
  | some s =>
      if s.active = 0 then some s
      else some (moveSpriteBody s gravity window_height)

/-- `arcade_move_sprite` (arcade.c:452): public wrapper, null guarded. -/
def arcade_move_sprite (sprite : Option ArcadeSprite) (gravity : ℚ)
    (window_height : ℤ) : Option ArcadeSprite :=
  match sprite with
  | none => none
  | some s => move_sprite (some s) gravity window_height

/-- Body of `arcade_move_image_sprite` (arcade.c:458) after its guard;
identical update rule on the image-sprite fields. -/
def moveImageSpriteBody (s : ArcadeImageSprite) (gravity : ℚ)
    (window_height : ℤ) : ArcadeImageSprite :=
  let vy1 := s.vy + gravity
  let y1 := s.y + vy1
  let x1 := s.x + s.vx
  let p2 := if y1 < 0 then ((0 : ℚ), (0 : ℚ)) else (y1, vy1)
  let p3 :=
    if p2.1 > (window_height : ℚ) - s.height then
      (((window_height : ℚ) - s.height), (0 : ℚ))
    else p2
  { s with x := x1, y := p3.1, vy := p3.2 }

/-- `arcade_move_image_sprite` (arcade.c:458). -/
def arcade_move_image_sprite (sprite : Option ArcadeImageSprite)
    (gravity : ℚ) (window_height : ℤ) : Option ArcadeImageSprite :=
  match sprite with
  | none => none
  | some s =>
      if s.active = 0 then some s
      else some (moveImageSpriteBody s gravity window_height)

/-! ## Collision oracle (arcade.c:477-502, 629-635) -/

/-- `check_collision` (arcade.c:477): static AABB test on colour
sprites, null/inactive guarded, returning a C int. -/
def check_collision (a b : Option ArcadeSprite) : ℤ :=
  match a, b with
  | some a, some b =>
      if a.active = 0 ∨ b.active = 0 then 0
      else if a.x < b.x + b.width ∧ a.x + a.width > b.x ∧
              a.y < b.y + b.height ∧ a.y + a.height > b.y then 1 else 0
  | _, _ => 0

/-- `arcade_check_collision` (arcade.c:487). -/
def arcade_check_collision (a b : Option ArcadeSprite) : ℤ :=
  match a, b with
  | some a, some b => check_collision (some a) (some b)
  | _, _ => 0

/-- `arcade_check_image_collision` (arcade.c:494): same AABB test on
image sprites; note that it tests `active` but never `pixels`. -/
def arcade_check_image_collision (a b : Option ArcadeImageSprite) : ℤ :=
  match a, b with
  | some a, some b =>
      if a.active = 0 ∨ b.active = 0 then 0
      else if a.x < b.x + b.width ∧ a.x + a.width > b.x ∧
              a.y < b.y + b.height ∧ a.y + a.height > b.y then 1 else 0
  | _, _ => 0

/-- `arcade_check_animated_collision` (arcade.c:629): guards on null
pointers, frame 0's active flag and `other`'s active flag, then tests
the current frame. -/
def arcade_check_animated_collision (anim : Option ArcadeAnimatedSprite)
    (other : Option ArcadeImageSprite) : ℤ :=
  match anim, other with
  | some an, some o =>
      if (an.frames.getD 0 default).active = 0 ∨ o.active = 0 then 0
      else
        arcade_check_image_collision
          (some (an.frames.getD an.current_frame.toNat default)) (some o)
  | _, _ => 0

/-! ## Image-sprite creation (arcade.c:504-575) -/

/-- The external image-codec boundary of the spec:
`decode_and_resize(source, target_w, target_h) -> RGBA buffer | failure`.
It stands for the `stbi_load` + `stbir_resize_uint8_srgb` + pixel-buffer
allocation pipeline of `load_image_sprite`; `none` covers a decode
failure, a resize failure or an allocation failure (in the allocation
case the C code has already stored `image_width`/`image_height` before
failing, a difference no claim observes). -/
def DecodeOracle : Type := String → ℤ → ℤ → Option (List ℕ)

/-- `load_image_sprite` (arcade.c:504): fills the sprite from the codec
result and returns the C status int (0 success, 1 failure).  On success
it sets `image_width`, `image_height`, `pixels`, the display size and
`active = 1`; on failure it leaves the sprite as given. -/
def load_image_sprite (oracle : DecodeOracle) (sprite : ArcadeImageSprite)
    (filename : Option String) (target_width target_height : ℤ) :
    ArcadeImageSprite × ℤ :=
  match filename with
  | none => (sprite, 1)
  | some f =>
      match oracle f target_width target_height with
      | none => (sprite, 1)
      | some px =>
          ({ sprite with
              image_width := target_width
              image_height := target_height
              pixels := some px
              width := (target_width : ℚ)
              height := (target_height : ℚ)
              active := 1 }, 0)

/-- `arcade_create_image_sprite` (arcade.c:554): initialises the sprite
literal with `pixels = NULL` and `active = 1`, loads only when the
filename is non-null, and nulls `pixels` when the load fails. -/
def arcade_create_image_sprite (oracle : DecodeOracle) (x y w h : ℚ)
    (filename : Option String) : ArcadeImageSprite :=
  let sprite : ArcadeImageSprite :=
    { x := x, y := y, width := 0, height := 0, vy := 0, vx := 0,
      pixels := none, image_width := 0, image_height := 0, active := 1 }
  match filename with
  | none => sprite
  | some f =>
      let r := load_image_sprite oracle sprite (some f) (ratTrunc w)
        (ratTrunc h)
      if r.2 ≠ 0 then { r.1 with pixels := none } else r.1

/-- The frame-loading loop of `arcade_create_animated_sprite`
(arcade.c:583-592): loads frames `0..n-1` in order and aborts on the
first frame whose `pixels` ends up null (in C the loop then frees the
partial frames and returns the zero struct). -/
def buildFrames (oracle : DecodeOracle) (x y w h : ℚ)
    (filenames : ℕ → Option String) : ℕ → Option (List ArcadeImageSprite)
  | 0 => some []
  | n + 1 =>
      match buildFrames oracle x y w h filenames n with
      | none => none
      | some acc =>
          let s := arcade_create_image_sprite oracle x y w h (filenames n)
          if s.pixels = none then none else some (acc ++ [s])

/-- `arcade_create_animated_sprite` (arcade.c:577): on any frame-load
failure returns the zero struct `(ArcadeAnimatedSprite){0}`; on success
re-asserts `frames[0].active = 1` and keeps `current_frame = 0`,
`frame_counter = 0` from the zero initialiser.  `filenames` is the
`const char **` array indexed by frame number; a negative `frame_count`
runs the loop zero times (and the `frames[0].active = 1` store would
then be out of bounds in C; the model skips it on an empty list). -/
def arcade_create_animated_sprite (oracle : DecodeOracle) (x y w h : ℚ)
    (filenames : ℕ → Option String) (frame_count frame_interval : ℤ) :
    ArcadeAnimatedSprite :=
  match buildFrames oracle x y w h filenames frame_count.toNat with
  | none =>
      { frames := [], frame_count := 0, current_frame := 0,
        frame_interval := 0, frame_counter := 0 }
  | some fs =>
      let fs1 :=
        match fs with
        | [] => ([] : List ArcadeImageSprite)
        | f :: rest => { f with active := 1 } :: rest
      { frames := fs1, frame_count := frame_count, current_frame := 0,
        frame_interval := frame_interval, frame_counter := 0 }

/-! ## Animated-sprite update (arcade.c:609-627) -/

/-- The frame-sync loop of `arcade_move_animated_sprite`
(arcade.c:615-621): `for (i = 0; i < frame_count; i++)` copies the
current frame's `x`, `y`, `vx`, `vy` onto frame `i`. -/
def syncFrames (frames : List ArcadeImageSprite) (n : ℕ)
    (c : ArcadeImageSprite) : List ArcadeImageSprite :=
  frames.mapIdx fun i f =>
    if i < n then { f with x := c.x, y := c.y, vx := c.vx, vy := c.vy }
    else f

/-- `arcade_move_animated_sprite` (arcade.c:609): guarded on a null
pointer and on frame 0's active flag; moves the current frame in place,
syncs every frame below `frame_count`, then advances the animation
counter (`%` is the C truncated remainder, `Int.tmod`). -/
def arcade_move_animated_sprite (anim : Option ArcadeAnimatedSprite)
    (gravity : ℚ) (window_height : ℤ) : Option ArcadeAnimatedSprite :=
  match anim with
  | none => none
  | some a =>
      if (a.frames.getD 0 default).active = 0 then some a
      else
        let current :=
          match arcade_move_image_sprite
              (some (a.frames.getD a.current_frame.toNat default))
              gravity window_height with
          | none => a.frames.getD a.current_frame.toNat default
          | some c => c
        let frames1 := a.frames.set a.current_frame.toNat current
        let frames2 := syncFrames frames1 a.frame_count.toNat current
        if a.frame_counter + 1 ≥ a.frame_interval then
          some { a with frames := frames2,
                        current_frame :=
                          (a.current_frame + 1).tmod a.frame_count,
                        frame_counter := 0 }
        else
          some { a with frames := frames2,
                        frame_counter := a.frame_counter + 1 }

/-! ## Compositor (arcade.c:640-699) -/

/-- The destination surface: `state.width`, `state.height`,
`state.pixels` (a heap buffer of `width * height` 32-bit pixels) and
`state.bg_color`. -/
structure Surface where
  width : ℤ
  height : ℤ
  pixels : List ℕ
  bg_color : ℕ
deriving DecidableEq, Repr, Inhabited

/-- Inner pixel loop of the `SPRITE_COLOR` branch of `draw_sprite`
(arcade.c:649-659): `for (x = x_start; x < x_end && x < state.width;
x++)`, skipping `x < 0`, writing `pixels[y*width+x] = color`. -/
def drawRectRow (p : List ℕ) (w y xs xe xmax : ℤ) (color : ℕ) :
    List ℕ :=
  (List.range (min xe xmax - xs).toNat).foldl
    (fun acc k =>
      let x := xs + (k : ℤ)
      if x < 0 then acc else acc.set (y * w + x).toNat color) p

/-- `SPRITE_COLOR` branch of `draw_sprite` (arcade.c:644-661): truncated
casts of the float geometry, then the clipped row/column loops. -/
def drawRect (surf : Surface) (s : ArcadeSprite) : Surface :=
  let xs := ratTrunc s.x
  let ys := ratTrunc s.y
  let xe := xs + ratTrunc s.width
  let ye := ys + ratTrunc s.height
  let px :=
    (List.range (min ye surf.height - ys).toNat).foldl
      (fun acc k =>
        let y := ys + (k : ℤ)
        if y < 0 then acc
        else drawRectRow acc surf.width y xs xe surf.width s.color)
      surf.pixels
  { surf with pixels := px }

/-- Inner pixel loop of the `SPRITE_IMAGE` branch (arcade.c:674-685):
also bounded by the source width `iw`, reads `src[sy*iw+sx]` and writes
it only when its alpha byte (`pixel >> 24`) is nonzero. -/
def drawImageRow (p : List ℕ) (w y xs xe xmax : ℤ) (src : List ℕ)
    (iw sy : ℤ) : List ℕ :=
  (List.range (min (min xe xmax - xs) iw).toNat).foldl
    (fun acc k =>
      let x := xs + (k : ℤ)
      if x < 0 then acc
      else
        let pixel := src.getD (sy * iw + (k : ℤ)).toNat 0
        if pixel >>> 24 > 0 then acc.set (y * w + x).toNat pixel
        else acc) p

/-- `SPRITE_IMAGE` branch of `draw_sprite` (arcade.c:662-688): the row
loop is additionally bounded by the source height `ih`; the `continue`
on `y < 0` still advances the source row, so source row = `k`. -/
def drawImage (surf : Surface) (s : ArcadeImageSprite) (src : List ℕ) :
    Surface :=
  let xs := ratTrunc s.x
  let ys := ratTrunc s.y
  let xe := xs + ratTrunc s.width
  let ye := ys + ratTrunc s.height
  let px :=
    (List.range (min (min ye surf.height - ys) s.image_height).toNat).foldl
      (fun acc k =>
        let y := ys + (k : ℤ)
        if y < 0 then acc
        else drawImageRow acc surf.width y xs xe surf.width src
          s.image_width (k : ℤ))
      surf.pixels
  { surf with pixels := px }

/-- `draw_sprite` (arcade.c:640): null-guarded; draws the colour branch
for `type == SPRITE_COLOR && active`, the image branch for
`type == SPRITE_IMAGE && active && pixels`.  A tag that does not match
the union's stored variant reinterprets union memory in C; the model
draws nothing in that case, and no claim exercises it. -/
def draw_sprite (surf : Surface) (sprite : Option ArcadeAnySprite)
    (ty : ℤ) : Surface :=
  match sprite with
  | none => surf
  | some (.sprite s) =>
      if ty = SPRITE_COLOR ∧ s.active ≠ 0 then drawRect surf s else surf
  | some (.image_sprite s) =>
      if ty = SPRITE_IMAGE ∧ s.active ≠ 0 then
        match s.pixels with
        | none => surf
        | some src => drawImage surf s src
      else surf

/-- `arcade_render_scene` (arcade.c:691): clears every index below
`width * height` to the background colour, then draws the `count`
sprites in array order. -/
def arcade_render_scene (surf : Surface) (sprites : ℕ → ArcadeAnySprite)
    (count : ℤ) (types : ℕ → ℤ) : Surface :=
  let clearedPx :=
    (List.range (surf.width * surf.height).toNat).foldl
      (fun acc i => acc.set i surf.bg_color) surf.pixels
  let cleared := { surf with pixels := clearedPx }
  (List.range count.toNat).foldl
    (fun acc i => draw_sprite acc (some (sprites i)) (types i)) cleared

/-! ## Sprite groups (arcade.c:779-816) -/

/-- `SpriteGroup` (arcade.h:245): the malloc'd `sprites` and `types`
buffers are modelled as total functions from the array index. -/
structure SpriteGroup where
  sprites : ℕ → ArcadeAnySprite
  types : ℕ → ℤ
  count : ℤ
  capacity : ℤ

/-- `arcade_init_group` (arcade.c:779): stores fresh buffers and
`count = 0` through the pointer, with no null check — a null group is a
null dereference (`Except.error ()`).  The malloc'd buffers have
indeterminate contents, modelled as a fixed default-valued buffer; no
claim reads a slot below `count`. -/
def arcade_init_group (group : Option SpriteGroup) (capacity : ℤ) :
    Except Unit SpriteGroup :=
  match group with
  | none => Except.error ()
  | some _ =>
      Except.ok { sprites := fun _ => default, types := fun _ => 0,
                  count := 0, capacity := capacity }

/-- `arcade_add_sprite_to_group` (arcade.c:787): reads `group->count`
with no null check; appends only while `count < capacity`. -/
def arcade_add_sprite_to_group (group : Option SpriteGroup)
    (sprite : ArcadeAnySprite) (ty : ℤ) : Except Unit SpriteGroup :=
  match group with
  | none => Except.error ()
  | some g =>
      if g.count < g.capacity then
        Except.ok
          { g with
              sprites := Function.update g.sprites g.count.toNat sprite
              types := Function.update g.types g.count.toNat ty
              count := g.count + 1 }
      else Except.ok g

/-- `arcade_render_group` (arcade.c:805): dereferences the group with no
null check and renders its sprites. -/
def arcade_render_group (group : Option SpriteGroup) (surf : Surface) :
    Except Unit Surface :=
  match group with
  | none => Except.error ()
  | some g => Except.ok (arcade_render_scene surf g.sprites g.count g.types)

/-- `arcade_free_group` (arcade.c:810): frees the buffers through the
pointer with no null check and zeroes `count` and `capacity`. -/
def arcade_free_group (group : Option SpriteGroup) :
    Except Unit SpriteGroup :=
  match group with
  | none => Except.error ()
  | some g => Except.ok { g with count := 0, capacity := 0 }

/-! ## Spec-side kinematics (for claim C1)

`kinematicsSpecRect` / `kinematicsSpecImage` transcribe the claim's own
wording — first `vy += gravity`, then `y += vy`, then `x += vx`, then the
two clamps in order — to be compared with the code-side update. -/

/-- Claim C1's update rule on a rect sprite, written from the claim. -/
def kinematicsSpecRect (s : ArcadeSprite) (g : ℚ) (H : ℤ) : ArcadeSprite :=
  let s1 := { s with vy := s.vy + g }
  let s2 := { s1 with y := s1.y + s1.vy }
  let s3 := { s2 with x := s2.x + s2.vx }
  let s4 := if s3.y < 0 then { s3 with y := 0, vy := 0 } else s3
  if s4.y > (H : ℚ) - s4.height then
    { s4 with y := (H : ℚ) - s4.height, vy := 0 }
  else s4

/-- Claim C1's update rule on an image sprite, written from the claim. -/
def kinematicsSpecImage (s : ArcadeImageSprite) (g : ℚ) (H : ℤ) :
    ArcadeImageSprite :=
  let s1 := { s with vy := s.vy + g }
  let s2 := { s1 with y := s1.y + s1.vy }
  let s3 := { s2 with x := s2.x + s2.vx }
  let s4 := if s3.y < 0 then { s3 with y := 0, vy := 0 } else s3
  if s4.y > (H : ℚ) - s4.height then
    { s4 with y := (H : ℚ) - s4.height, vy := 0 }
  else s4

/-! ## Helper definitions for the proofs -/

/-- The value `arcade_move_image_sprite` produces for the animated
sprite's current frame inside `arcade_move_animated_sprite`. -/
def movedCur (g : ℚ) (H : ℤ) (a : ArcadeAnimatedSprite) :
    ArcadeImageSprite :=
  let cur := a.frames.getD a.current_frame.toNat default
  if cur.active = 0 then cur else moveImageSpriteBody cur g H

/-- One full `arcade_move_animated_sprite` call as a state transformer,
for iterating the update. -/
def animStep (g : ℚ) (H : ℤ) (a : ArcadeAnimatedSprite) :
    ArcadeAnimatedSprite :=
  (arcade_move_animated_sprite (some a) g H).getD a

/-- The pure `(current_frame, frame_counter)` evolution of the
animation controller, `n` updates from the given pair. -/
def counterIter (interval count : ℤ) : ℕ → ℤ × ℤ → ℤ × ℤ
  | 0, p => p
  | n + 1, p =>
      let q := counterIter interval count n p
      if q.2 + 1 ≥ interval then ((q.1 + 1).tmod count, 0)
      else (q.1, q.2 + 1)

/-- One `move_sprite` call as a state transformer, for iterating the
kinematics update. -/
def stepRect (g : ℚ) (H : ℤ) (s : ArcadeSprite) : ArcadeSprite :=
  (move_sprite (some s) g H).getD s

/-! ## Concrete inputs for witnesses and counterexamples -/

/-- Concrete input for the claim C1 witness. -/
def c1Rect : ArcadeSprite :=
  { x := 3, y := 4, width := 10, height := 10, vy := 2, vx := 1,
    color := 255, active := 1 }

/-- Concrete image sprite for the claim C1 witness. -/
def c1Img : ArcadeImageSprite :=
  { x := 3, y := 595, width := 10, height := 10, vy := 2, vx := 1,
    pixels := some [0], image_width := 1, image_height := 1, active := 1 }

/-- Edge-touching rect pair for the claim C9 witness:
`a.x + a.width = b.x`. -/
def c9A : ArcadeSprite :=
  { x := 0, y := 0, width := 10, height := 10, vy := 0, vx := 0,
    color := 0, active := 1 }

/-- Edge-touching partner of `c9A`. -/
def c9B : ArcadeSprite :=
  { x := 10, y := 0, width := 10, height := 10, vy := 0, vx := 0,
    color := 0, active := 1 }

/-- Overlapping image pair for the claim C9 witness. -/
def c9IA : ArcadeImageSprite :=
  { x := 0, y := 0, width := 10, height := 10, vy := 0, vx := 0,
    pixels := some [0], image_width := 1, image_height := 1, active := 1 }

/-- Overlapping partner of `c9IA`. -/
def c9IB : ArcadeImageSprite :=
  { x := 5, y := 5, width := 10, height := 10, vy := 0, vx := 0,
    pixels := some [0], image_width := 1, image_height := 1, active := 1 }

/-- A full concrete group (`count = capacity = 2`) for the claim C8
witness. -/
def c8Full : SpriteGroup :=
  { sprites := fun _ => ArcadeAnySprite.sprite c9A, types := fun _ => 0,
    count := 2, capacity := 2 }

/-- A non-full concrete group (`count = 1 < capacity = 2`) for the
claim C8 witness. -/
def c8Open : SpriteGroup :=
  { sprites := fun _ => ArcadeAnySprite.sprite c9A, types := fun _ => 0,
    count := 1, capacity := 2 }

/-- An active image sprite whose pixel buffer is null, for the claim C2
counterexample. -/
def c2NullPix : ArcadeImageSprite :=
  { x := 0, y := 0, width := 10, height := 10, vy := 0, vx := 0,
    pixels := none, image_width := 0, image_height := 0, active := 1 }

/-- An ordinary active image sprite overlapping `c2NullPix`. -/
def c2Other : ArcadeImageSprite :=
  { x := 5, y := 5, width := 10, height := 10, vy := 0, vx := 0,
    pixels := some [0], image_width := 1, image_height := 1, active := 1 }

/-- Concrete inactive rect sprite for the claim C2 witness. -/
def c2InactiveRect : ArcadeSprite :=
  { x := 0, y := 0, width := 10, height := 10, vy := 0, vx := 0,
    color := 7, active := 0 }

/-- Concrete inactive image sprite for the claim C2 witness. -/
def c2InactiveImg : ArcadeImageSprite :=
  { x := 0, y := 0, width := 10, height := 10, vy := 0, vx := 0,
    pixels := some [4278190080], image_width := 1, image_height := 1,
    active := 0 }

/-- Concrete animated sprite with an inactive frame 0 for the claim C2
witness. -/
def c2DeadAnim : ArcadeAnimatedSprite :=
  { frames := [c2InactiveImg], frame_count := 1, current_frame := 0,
    frame_interval := 5, frame_counter := 0 }

/-- Concrete surface for the claim C2 witness. -/
def c2Surf : Surface :=
  { width := 4, height := 4, pixels := List.replicate 16 0,
    bg_color := 0 }

/-- Always-succeeding decode oracle (every file decodes to a one-pixel
opaque buffer), used to model a fully successful animated-sprite
creation. -/
def c3Oracle : DecodeOracle := fun _ _ _ => some [4278190080]

/-- A two-frame animated sprite created with every frame load
succeeding. -/
def c3Anim : ArcadeAnimatedSprite :=
  arcade_create_animated_sprite c3Oracle 10 20 8 8 (fun _ => some "f")
    2 5

/-- A live frame for the claim C4/C5 scenario sprite. -/
def c4Frame : ArcadeImageSprite :=
  { x := 100, y := 100, width := 50, height := 50, vy := 0, vx := 0,
    pixels := some [4278190080], image_width := 1, image_height := 1,
    active := 1 }

/-- The claim C4 scenario sprite: 3 frames, interval 5, starting at
frame 0 with counter 0. -/
def c4Anim : ArcadeAnimatedSprite :=
  { frames := [c4Frame, c4Frame, c4Frame], frame_count := 3,
    current_frame := 0, frame_interval := 5, frame_counter := 0 }

/-- The claim C6 scenario sprite: a 50-by-50 rect at (400, 300) with
zero velocity. -/
def c6Drop : ArcadeSprite :=
  { x := 400, y := 300, width := 50, height := 50, vy := 0, vx := 0,
    color := 0, active := 1 }

/-- Always-failing decode oracle for the claim C10 witness. -/
def c10Oracle : DecodeOracle := fun _ _ _ => none

/-- An active image sprite overlapping the origin, partner for the
claim C10 witness. -/
def c10Other : ArcadeImageSprite :=
  { x := -5, y := -5, width := 10, height := 10, vy := 0, vx := 0,
    pixels := some [0], image_width := 1, image_height := 1, active := 1 }

/-! ## Helper lemmas -/

lemma moveSpriteBody_eq_spec (s : ArcadeSprite) (g : ℚ) (H : ℤ) :
    moveSpriteBody s g H = kinematicsSpecRect s g H := by
  unfold moveSpriteBody kinematicsSpecRect
  dsimp only
  split_ifs <;> rfl

lemma moveImageSpriteBody_eq_spec (s : ArcadeImageSprite) (g : ℚ) (H : ℤ) :
    moveImageSpriteBody s g H = kinematicsSpecImage s g H := by
  unfold moveImageSpriteBody kinematicsSpecImage
  dsimp only
  split_ifs <;> rfl

/-! ## Claim theorems -/

/-- Claim C1: for every non-null, active sprite (rect or image), one
kinematics update sets `vy := vy + gravity`, then `y := y + vy`, then
`x := x + vx`, then clamps `y < 0` to `(y, vy) := (0, 0)` and
`y > window_height - height` to `(window_height - height, 0)`; a null
pointer or an inactive sprite is left unchanged. -/
theorem C1_kinematics_update (s : ArcadeSprite) (si : ArcadeImageSprite)
    (g : ℚ) (H : ℤ) :
    (s.active ≠ 0 →
      arcade_move_sprite (some s) g H = some (kinematicsSpecRect s g H)) ∧
    (s.active = 0 → arcade_move_sprite (some s) g H = some s) ∧
    arcade_move_sprite none g H = none ∧
    (si.active ≠ 0 →
      arcade_move_image_sprite (some si) g H =
        some (kinematicsSpecImage si g H)) ∧
    (si.active = 0 → arcade_move_image_sprite (some si) g H = some si) ∧
    arcade_move_image_sprite none g H = none := by
  refine ⟨?_, ?_, rfl, ?_, ?_, rfl⟩
  · intro h
    simp [arcade_move_sprite, move_sprite, h, moveSpriteBody_eq_spec]
  · intro h
    simp [arcade_move_sprite, move_sprite, h]
  · intro h
    simp [arcade_move_image_sprite, h, moveImageSpriteBody_eq_spec]
  · intro h
    simp [arcade_move_image_sprite, h]

/-- Witness for claim C1 at a concrete active rect sprite and a concrete
image sprite that hits the floor clamp. -/
theorem C1_kinematics_update_witness :
    arcade_move_sprite (some c1Rect) (1/2) 600 =
      some (kinematicsSpecRect c1Rect (1/2) 600) ∧
    arcade_move_image_sprite (some c1Img) (1/2) 600 =
      some (kinematicsSpecImage c1Img (1/2) 600) ∧
    kinematicsSpecRect c1Rect (1/2) 600 =
      { x := 4, y := 13/2, width := 10, height := 10, vy := 5/2, vx := 1,
        color := 255, active := 1 } ∧
    kinematicsSpecImage c1Img (1/2) 600 =
      { x := 4, y := 590, width := 10, height := 10, vy := 0, vx := 1,
        pixels := some [0], image_width := 1, image_height := 1,
        active := 1 } :=
  ⟨(C1_kinematics_update c1Rect c1Img (1/2) 600).1 (by decide),
   (C1_kinematics_update c1Rect c1Img (1/2) 600).2.2.2.1 (by decide),
   by norm_num [kinematicsSpecRect, c1Rect],
   by norm_num [kinematicsSpecImage, c1Img]⟩

/-- Claim C9: for two non-null active sprites of the same variant the
collision check returns 1 exactly when all four strict AABB
inequalities hold; touching edges therefore do not collide. -/
theorem C9_aabb_strict (a b : ArcadeSprite) (ia ib : ArcadeImageSprite)
    (ha : a.active ≠ 0) (hb : b.active ≠ 0)
    (hia : ia.active ≠ 0) (hib : ib.active ≠ 0) :
    (arcade_check_collision (some a) (some b) = 1 ↔
      (a.x < b.x + b.width ∧ a.x + a.width > b.x ∧
       a.y < b.y + b.height ∧ a.y + a.height > b.y)) ∧
    (arcade_check_image_collision (some ia) (some ib) = 1 ↔
      (ia.x < ib.x + ib.width ∧ ia.x + ia.width > ib.x ∧
       ia.y < ib.y + ib.height ∧ ia.y + ia.height > ib.y)) := by
  constructor
  · simp only [arcade_check_collision, check_collision]
    rw [if_neg (by tauto)]
    split_ifs with h
    · simp only [eq_self_iff_true, true_iff]
      exact h
    · simp only [iff_false_intro h, iff_false]
      decide
  · simp only [arcade_check_image_collision]
    rw [if_neg (by tauto)]
    split_ifs with h
    · simp only [eq_self_iff_true, true_iff]
      exact h
    · simp only [iff_false_intro h, iff_false]
      decide

/-- Witness for claim C9 at active sprites: an edge-touching rect pair
(where the AABB conjunction is false) and an overlapping image pair. -/
theorem C9_aabb_strict_witness :
    (arcade_check_collision (some c9A) (some c9B) = 1 ↔
      (c9A.x < c9B.x + c9B.width ∧ c9A.x + c9A.width > c9B.x ∧
       c9A.y < c9B.y + c9B.height ∧ c9A.y + c9A.height > c9B.y)) ∧
    (arcade_check_image_collision (some c9IA) (some c9IB) = 1 ↔
      (c9IA.x < c9IB.x + c9IB.width ∧ c9IA.x + c9IA.width > c9IB.x ∧
       c9IA.y < c9IB.y + c9IB.height ∧ c9IA.y + c9IA.height > c9IB.y)) :=
  C9_aabb_strict c9A c9B c9IA c9IB (by decide) (by decide) (by decide)
    (by decide)

/-- Claim C8: appending to a full group (`count = capacity`) leaves it
entirely unchanged with no error; appending below capacity stores the
sprite and its tag at index `count` and increments `count` by one. -/
theorem C8_group_append (g : SpriteGroup) (s : ArcadeAnySprite) (t : ℤ) :
    (g.count = g.capacity →
      arcade_add_sprite_to_group (some g) s t = Except.ok g) ∧
    (g.count < g.capacity →
      arcade_add_sprite_to_group (some g) s t =
        Except.ok
          { g with
              sprites := Function.update g.sprites g.count.toNat s
              types := Function.update g.types g.count.toNat t
              count := g.count + 1 }) := by
  constructor
  · intro h
    simp [arcade_add_sprite_to_group, h]
  · intro h
    simp [arcade_add_sprite_to_group, h]

/-- Witness for claim C8 at a full group and at a non-full group. -/
theorem C8_group_append_witness :
    arcade_add_sprite_to_group (some c8Full) (ArcadeAnySprite.sprite c9B)
      1 = Except.ok c8Full ∧
    arcade_add_sprite_to_group (some c8Open) (ArcadeAnySprite.sprite c9B)
      1 =
      Except.ok
        { c8Open with
            sprites :=
              Function.update c8Open.sprites c8Open.count.toNat
                (ArcadeAnySprite.sprite c9B)
            types := Function.update c8Open.types c8Open.count.toNat 1
            count := c8Open.count + 1 } :=
  ⟨(C8_group_append c8Full (ArcadeAnySprite.sprite c9B) 1).1 rfl,
   (C8_group_append c8Open (ArcadeAnySprite.sprite c9B) 1).2 (by decide)⟩

/-- Counterexample to claim C2 as stated: `c2NullPix` has a null pixel
buffer, yet `arcade_check_image_collision` — which tests only the
`active` flags — returns 1 for it, not 0; a null pixel buffer does not
exclude a sprite from collision. -/
theorem C2_counterexample :
    c2NullPix.pixels = none ∧ c2NullPix.active = 1 ∧
    arcade_check_image_collision (some c2NullPix) (some c2Other) = 1 ∧
    arcade_check_image_collision (some c2Other) (some c2NullPix) = 1 := by
  refine ⟨rfl, rfl, ?_, ?_⟩ <;>
    norm_num [arcade_check_image_collision, c2NullPix, c2Other]

/-- Claim C2 as amended: every sprite with `active = 0` is excluded from
rendering and from every collision check; an image sprite with a null
pixel buffer is excluded from rendering (but not from collision). -/
theorem C2_inactive_excluded (s sb : ArcadeSprite)
    (si sib : ArcadeImageSprite) (an : ArcadeAnimatedSprite)
    (surf : Surface) :
    (s.active = 0 →
      draw_sprite surf (some (ArcadeAnySprite.sprite s)) SPRITE_COLOR =
        surf) ∧
    (si.active = 0 →
      draw_sprite surf (some (ArcadeAnySprite.image_sprite si))
        SPRITE_IMAGE = surf) ∧
    (si.pixels = none →
      draw_sprite surf (some (ArcadeAnySprite.image_sprite si))
        SPRITE_IMAGE = surf) ∧
    (s.active = 0 →
      check_collision (some s) (some sb) = 0 ∧
      check_collision (some sb) (some s) = 0 ∧
      arcade_check_collision (some s) (some sb) = 0 ∧
      arcade_check_collision (some sb) (some s) = 0) ∧
    (si.active = 0 →
      arcade_check_image_collision (some si) (some sib) = 0 ∧
      arcade_check_image_collision (some sib) (some si) = 0 ∧
      arcade_check_animated_collision (some an) (some si) = 0) ∧
    ((an.frames.getD 0 default).active = 0 →
      arcade_check_animated_collision (some an) (some sib) = 0) := by
  refine ⟨?_, ?_, ?_, ?_, ?_, ?_⟩
  · intro h
    simp [draw_sprite, h]
  · intro h
    simp [draw_sprite, h]
  · intro h
    by_cases ha : si.active = 0 <;> simp [draw_sprite, h, ha]
  · intro h
    have h1 : check_collision (some s) (some sb) = 0 := by
      simp only [check_collision]
      rw [if_pos (Or.inl h)]
    have h2 : check_collision (some sb) (some s) = 0 := by
      simp only [check_collision]
      rw [if_pos (Or.inr h)]
    refine ⟨h1, h2, ?_, ?_⟩
    · simp only [arcade_check_collision]
      exact h1
    · simp only [arcade_check_collision]
      exact h2
  · intro h
    refine ⟨?_, ?_, ?_⟩
    · simp only [arcade_check_image_collision]
      rw [if_pos (Or.inl h)]
    · simp only [arcade_check_image_collision]
      rw [if_pos (Or.inr h)]
    · simp only [arcade_check_animated_collision]
      rw [if_pos (Or.inr h)]
  · intro h
    simp only [arcade_check_animated_collision]
    rw [if_pos (Or.inl h)]

/-- Witness for the amended claim C2 at concrete inactive sprites, a
null-pixel image sprite and a dead animated sprite. -/
theorem C2_inactive_excluded_witness :
    draw_sprite c2Surf (some (ArcadeAnySprite.sprite c2InactiveRect))
      SPRITE_COLOR = c2Surf ∧
    draw_sprite c2Surf (some (ArcadeAnySprite.image_sprite c2NullPix))
      SPRITE_IMAGE = c2Surf ∧
    check_collision (some c2InactiveRect) (some c2InactiveRect) = 0 ∧
    arcade_check_image_collision (some c2InactiveImg) (some c2Other) =
      0 ∧
    arcade_check_animated_collision (some c2DeadAnim) (some c2Other) =
      0 := by
  have h := C2_inactive_excluded c2InactiveRect c2InactiveRect
    c2InactiveImg c2Other c2DeadAnim c2Surf
  have h2 := C2_inactive_excluded c2InactiveRect c2InactiveRect
    c2NullPix c2Other c2DeadAnim c2Surf
  exact ⟨h.1 rfl, h2.2.2.1 rfl, (h.2.2.2.1 rfl).1, (h.2.2.2.2.1 rfl).1,
    h.2.2.2.2.2 rfl⟩

/-- Counterexample to claim C7 as stated: `arcade_init_group` has no
null check — called on a null group it dereferences the null pointer
(the model's `Except.error ()`) instead of returning as a no-op, and so
do `arcade_add_sprite_to_group`, `arcade_render_group` and
`arcade_free_group`. -/
theorem C7_counterexample :
    arcade_init_group none 5 = Except.error () ∧
    arcade_add_sprite_to_group none (ArcadeAnySprite.sprite c9A) 0 =
      Except.error () ∧
    arcade_render_group none c2Surf = Except.error () ∧
    arcade_free_group none = Except.error () :=
  ⟨rfl, rfl, rfl, rfl⟩

/-- Claim C7 as amended: a null sprite pointer is a no-op for the sprite
operations (kinematics updates and collision checks never dereference
it), but the group operations perform no null check and dereference a
null group pointer unconditionally. -/
theorem C7_null_handling :
    (∀ g : ℚ, ∀ H : ℤ,
      arcade_move_sprite none g H = none ∧
      move_sprite none g H = none ∧
      arcade_move_image_sprite none g H = none ∧
      arcade_move_animated_sprite none g H = none) ∧
    (∀ b, arcade_check_collision none b = 0 ∧
      arcade_check_collision b none = 0) ∧
    (∀ b, arcade_check_image_collision none b = 0 ∧
      arcade_check_image_collision b none = 0) ∧
    (∀ o, arcade_check_animated_collision none o = 0) ∧
    (∀ an, arcade_check_animated_collision an none = 0) ∧
    (∀ c : ℤ, arcade_init_group none c = Except.error ()) ∧
    (∀ sp : ArcadeAnySprite, ∀ t : ℤ,
      arcade_add_sprite_to_group none sp t = Except.error ()) ∧
    (∀ surf, arcade_render_group none surf = Except.error ()) ∧
    arcade_free_group none = Except.error () := by
  refine ⟨fun g H => ⟨rfl, rfl, rfl, rfl⟩, fun b => ⟨rfl, ?_⟩,
    fun b => ⟨rfl, ?_⟩, fun o => rfl, fun an => ?_, fun c => rfl,
    fun sp t => rfl, fun surf => rfl, rfl⟩
  · cases b <;> rfl
  · cases b <;> rfl
  · cases an <;> rfl

/-- Claim C3 (code bug): after a fully successful two-frame creation,
frame 1's active flag is 1, not 0 — `load_image_sprite` sets
`active = 1` on every loaded frame, contradicting the header's
documented behaviour (arcade.h:552, "Sets first frame's active = 1,
others = 0"). -/
theorem C3_all_frames_active :
    c3Anim.frames.length = 2 ∧
    (c3Anim.frames.getD 0 default).active = 1 ∧
    (c3Anim.frames.getD 1 default).active = 1 := by
  refine ⟨rfl, rfl, rfl⟩


lemma frames_length_pos {a : ArcadeAnimatedSprite}
    (hlive : (a.frames.getD 0 default).active ≠ 0) :
    0 < a.frames.length := by
  rcases hf : a.frames with _ | ⟨f, fs⟩
  · rw [hf, List.getD_nil] at hlive
    exact absurd rfl hlive
  · simp

lemma moveImageSpriteBody_active (s : ArcadeImageSprite) (g : ℚ) (H : ℤ) :
    (moveImageSpriteBody s g H).active = s.active := rfl

lemma movedCur_active (g : ℚ) (H : ℤ) (a : ArcadeAnimatedSprite) :
    (movedCur g H a).active =
      (a.frames.getD a.current_frame.toNat default).active := by
  unfold movedCur
  dsimp only
  split_ifs with h
  · rfl
  · exact moveImageSpriteBody_active _ _ _

lemma move_image_some (s : ArcadeImageSprite) (g : ℚ) (H : ℤ) :
    arcade_move_image_sprite (some s) g H =
      some (if s.active = 0 then s else moveImageSpriteBody s g H) := by
  simp only [arcade_move_image_sprite]
  split_ifs <;> rfl

lemma move_anim_eq (g : ℚ) (H : ℤ) (a : ArcadeAnimatedSprite)
    (hlive : (a.frames.getD 0 default).active ≠ 0) :
    arcade_move_animated_sprite (some a) g H = some
      { a with
          frames := syncFrames
            (a.frames.set a.current_frame.toNat (movedCur g H a))
            a.frame_count.toNat (movedCur g H a)
          current_frame :=
            if a.frame_counter + 1 ≥ a.frame_interval then
              (a.current_frame + 1).tmod a.frame_count
            else a.current_frame
          frame_counter :=
            if a.frame_counter + 1 ≥ a.frame_interval then 0
            else a.frame_counter + 1 } := by
  simp only [arcade_move_animated_sprite, movedCur]
  rw [if_neg hlive, move_image_some]
  dsimp only
  split_ifs with h1 h2 <;> rfl

lemma syncFrames_length (fs : List ArcadeImageSprite) (n : ℕ)
    (c : ArcadeImageSprite) : (syncFrames fs n c).length = fs.length := by
  unfold syncFrames
  exact List.length_mapIdx

lemma syncFrames_getD (fs : List ArcadeImageSprite) (n : ℕ)
    (c : ArcadeImageSprite) (i : ℕ) (h : i < fs.length) :
    (syncFrames fs n c).getD i default =
      if i < n then
        { fs.getD i default with
            x := c.x, y := c.y, vx := c.vx, vy := c.vy }
      else fs.getD i default := by
  have h2 : i < (syncFrames fs n c).length := by
    rw [syncFrames_length]
    exact h
  rw [List.getD_eq_getElem _ _ h2, List.getD_eq_getElem _ _ h]
  unfold syncFrames
  rw [List.getElem_mapIdx]


lemma animStep_eq (g : ℚ) (H : ℤ) (a : ArcadeAnimatedSprite)
    (hlive : (a.frames.getD 0 default).active ≠ 0) :
    animStep g H a =
      { a with
          frames := syncFrames
            (a.frames.set a.current_frame.toNat (movedCur g H a))
            a.frame_count.toNat (movedCur g H a)
          current_frame :=
            if a.frame_counter + 1 ≥ a.frame_interval then
              (a.current_frame + 1).tmod a.frame_count
            else a.current_frame
          frame_counter :=
            if a.frame_counter + 1 ≥ a.frame_interval then 0
            else a.frame_counter + 1 } := by
  unfold animStep
  rw [move_anim_eq g H a hlive]
  rfl

lemma animStep_live (g : ℚ) (H : ℤ) (a : ArcadeAnimatedSprite)
    (hlive : (a.frames.getD 0 default).active ≠ 0) :
    ((animStep g H a).frames.getD 0 default).active ≠ 0 := by
  have hlen : 0 < a.frames.length := frames_length_pos hlive
  have hlen1 : (0 : ℕ) <
      (a.frames.set a.current_frame.toNat (movedCur g H a)).length := by
    rw [List.length_set]
    exact hlen
  have hset :
      ((a.frames.set a.current_frame.toNat (movedCur g H a)).getD 0
          default).active = (a.frames.getD 0 default).active := by
    rw [List.getD_eq_getElem _ _ hlen1, List.getElem_set,
      List.getD_eq_getElem _ _ hlen]
    split_ifs with he
    · rw [movedCur_active, he, List.getD_eq_getElem _ _ hlen]
    · rfl
  rw [animStep_eq g H a hlive]
  dsimp only
  rw [syncFrames_getD _ _ _ 0 hlen1]
  split_ifs with hn
  · dsimp only
    rw [hset]
    exact hlive
  · rw [hset]
    exact hlive

lemma animStep_iterate_char (g : ℚ) (H : ℤ) (a : ArcadeAnimatedSprite)
    (hlive : (a.frames.getD 0 default).active ≠ 0) (n : ℕ) :
    (((animStep g H)^[n] a).frames.getD 0 default).active ≠ 0 ∧
    ((animStep g H)^[n] a).frame_count = a.frame_count ∧
    ((animStep g H)^[n] a).frame_interval = a.frame_interval ∧
    ((animStep g H)^[n] a).current_frame =
      (counterIter a.frame_interval a.frame_count n
        (a.current_frame, a.frame_counter)).1 ∧
    ((animStep g H)^[n] a).frame_counter =
      (counterIter a.frame_interval a.frame_count n
        (a.current_frame, a.frame_counter)).2 := by
  induction n with
  | zero => exact ⟨hlive, rfl, rfl, rfl, rfl⟩
  | succ n ih =>
      obtain ⟨ih1, ih2, ih3, ih4, ih5⟩ := ih
      rw [Function.iterate_succ_apply']
      refine ⟨animStep_live g H _ ih1, ?_, ?_, ?_, ?_⟩
      · rw [animStep_eq g H _ ih1]
        exact ih2
      · rw [animStep_eq g H _ ih1]
        exact ih3
      · rw [animStep_eq g H _ ih1]
        dsimp only
        rw [ih2, ih3, ih4, ih5]
        simp only [counterIter]
        split_ifs <;> rfl
      · rw [animStep_eq g H _ ih1]
        dsimp only
        rw [ih3, ih5]
        simp only [counterIter]
        split_ifs <;> rfl


/-- Claim C4: each `arcade_move_animated_sprite` call on a live animated
sprite increments `frame_counter`; when the incremented counter reaches
`frame_interval` the current frame advances circularly and the counter
resets to 0; the concrete 3-frame, interval-5 sprite is on frame 0 with
counter 1 after 16 updates. -/
theorem C4_animation_advance (a : ArcadeAnimatedSprite) (g : ℚ) (H : ℤ)
    (hlive : (a.frames.getD 0 default).active ≠ 0)
    (hcf : 0 ≤ a.current_frame) (hfc : 0 < a.frame_count) :
    (∀ a', arcade_move_animated_sprite (some a) g H = some a' →
      (a.frame_counter + 1 = a.frame_interval →
        a'.frame_counter = 0 ∧
        a'.current_frame = (a.current_frame + 1) % a.frame_count) ∧
      (a.frame_counter + 1 < a.frame_interval →
        a'.frame_counter = a.frame_counter + 1 ∧
        a'.current_frame = a.current_frame)) ∧
    ((animStep (1/10) 600)^[16] c4Anim).current_frame = 0 ∧
    ((animStep (1/10) 600)^[16] c4Anim).frame_counter = 1 := by
  refine ⟨?_, ?_, ?_⟩
  · intro a' ha'
    rw [move_anim_eq g H a hlive] at ha'
    have ha2 := Option.some_injective _ ha'
    subst ha2
    constructor
    · intro hc
      have hge : a.frame_counter + 1 ≥ a.frame_interval := le_of_eq hc.symm
      dsimp only
      rw [if_pos hge, if_pos hge]
      refine ⟨rfl, ?_⟩
      rw [Int.tmod_eq_emod (by linarith) (by linarith)]
    · intro hc
      have hlt : ¬ (a.frame_counter + 1 ≥ a.frame_interval) :=
        not_le.mpr hc
      dsimp only
      rw [if_neg hlt, if_neg hlt]
      exact ⟨rfl, rfl⟩
  · have h := animStep_iterate_char (1/10) 600 c4Anim (by decide) 16
    rw [h.2.2.2.1]
    decide
  · have h := animStep_iterate_char (1/10) 600 c4Anim (by decide) 16
    rw [h.2.2.2.2]
    decide

/-- Witness for claim C4 at the concrete 3-frame interval-5 sprite
(counter 0, so one update only increments the counter). -/
theorem C4_animation_advance_witness :
    (∀ a', arcade_move_animated_sprite (some c4Anim) (1/10) 600 =
        some a' →
      (c4Anim.frame_counter + 1 = c4Anim.frame_interval →
        a'.frame_counter = 0 ∧
        a'.current_frame =
          (c4Anim.current_frame + 1) % c4Anim.frame_count) ∧
      (c4Anim.frame_counter + 1 < c4Anim.frame_interval →
        a'.frame_counter = c4Anim.frame_counter + 1 ∧
        a'.current_frame = c4Anim.current_frame)) ∧
    ((animStep (1/10) 600)^[16] c4Anim).current_frame = 0 ∧
    ((animStep (1/10) 600)^[16] c4Anim).frame_counter = 1 :=
  C4_animation_advance c4Anim (1/10) 600 (by decide) (by decide)
    (by decide)

/-- Claim C5: after `arcade_move_animated_sprite` on a live animated
sprite, the kinematics result of the current frame
(`arcade_move_image_sprite` applied to it) has been copied to every
frame, so all frames hold identical `x`, `y`, `vx`, `vy`. -/
theorem C5_frames_identical (a : ArcadeAnimatedSprite) (g : ℚ) (H : ℤ)
    (hlive : (a.frames.getD 0 default).active ≠ 0)
    (hlen : a.frames.length = a.frame_count.toNat) :
    ∀ a', arcade_move_animated_sprite (some a) g H = some a' →
      arcade_move_image_sprite
          (some (a.frames.getD a.current_frame.toNat default)) g H =
        some (movedCur g H a) ∧
      a'.frames.length = a.frames.length ∧
      ∀ i, i < a'.frames.length →
        (a'.frames.getD i default).x = (movedCur g H a).x ∧
        (a'.frames.getD i default).y = (movedCur g H a).y ∧
        (a'.frames.getD i default).vx = (movedCur g H a).vx ∧
        (a'.frames.getD i default).vy = (movedCur g H a).vy := by
  intro a' ha'
  rw [move_anim_eq g H a hlive] at ha'
  have ha2 := Option.some_injective _ ha'
  subst ha2
  refine ⟨?_, ?_, ?_⟩
  · rw [move_image_some]
    unfold movedCur
    rfl
  · dsimp only
    rw [syncFrames_length, List.length_set]
  · intro i hi
    dsimp only at hi ⊢
    rw [syncFrames_length, List.length_set] at hi
    have hi1 : i <
        (a.frames.set a.current_frame.toNat (movedCur g H a)).length := by
      rw [List.length_set]
      exact hi
    rw [syncFrames_getD _ _ _ i hi1]
    rw [if_pos (by rw [← hlen]; exact hi)]
    exact ⟨rfl, rfl, rfl, rfl⟩

/-- Witness for claim C5 at the concrete 3-frame sprite and its concrete
successor state `animStep (1/10) 600 c4Anim`. -/
theorem C5_frames_identical_witness :
    arcade_move_image_sprite
        (some (c4Anim.frames.getD c4Anim.current_frame.toNat default))
        (1/10) 600 =
      some (movedCur (1/10) 600 c4Anim) ∧
    (animStep (1/10) 600 c4Anim).frames.length =
      c4Anim.frames.length ∧
    ∀ i, i < (animStep (1/10) 600 c4Anim).frames.length →
      ((animStep (1/10) 600 c4Anim).frames.getD i default).x =
        (movedCur (1/10) 600 c4Anim).x ∧
      ((animStep (1/10) 600 c4Anim).frames.getD i default).y =
        (movedCur (1/10) 600 c4Anim).y ∧
      ((animStep (1/10) 600 c4Anim).frames.getD i default).vx =
        (movedCur (1/10) 600 c4Anim).vx ∧
      ((animStep (1/10) 600 c4Anim).frames.getD i default).vy =
        (movedCur (1/10) 600 c4Anim).vy := by
  have hsome : arcade_move_animated_sprite (some c4Anim) (1/10) 600 =
      some (animStep (1/10) 600 c4Anim) := by
    unfold animStep
    rw [move_anim_eq (1/10) 600 c4Anim (by decide)]
    rfl
  exact C5_frames_identical c4Anim (1/10) 600 (by decide) (by decide)
    (animStep (1/10) 600 c4Anim) hsome


/-- Claim C10: when image-sprite creation fails to produce pixel data
(null filename or failing decode/resize/allocation pipeline), the
returned sprite has `pixels = none` but `active = 1`; the renderer
skips it (it tests `pixels`), yet `arcade_check_image_collision` still
treats it as active and applies the plain AABB test to it. -/
theorem C10_failed_creation (oracle : DecodeOracle) (x y w h : ℚ)
    (f : String)
    (hfail : oracle f (ratTrunc w) (ratTrunc h) = none) :
    ((arcade_create_image_sprite oracle x y w h (some f)).pixels = none ∧
     (arcade_create_image_sprite oracle x y w h (some f)).active = 1) ∧
    ((arcade_create_image_sprite oracle x y w h none).pixels = none ∧
     (arcade_create_image_sprite oracle x y w h none).active = 1) ∧
    (∀ surf, draw_sprite surf
        (some (ArcadeAnySprite.image_sprite
          (arcade_create_image_sprite oracle x y w h (some f))))
        SPRITE_IMAGE = surf) ∧
    (∀ b, b.active ≠ 0 →
      (arcade_check_image_collision
          (some (arcade_create_image_sprite oracle x y w h (some f)))
          (some b) = 1 ↔
        (x < b.x + b.width ∧ x > b.x ∧
         y < b.y + b.height ∧ y > b.y))) := by
  have hs : arcade_create_image_sprite oracle x y w h (some f) =
      { x := x, y := y, width := 0, height := 0, vy := 0, vx := 0,
        pixels := none, image_width := 0, image_height := 0,
        active := 1 } := by
    simp only [arcade_create_image_sprite, load_image_sprite, hfail]
    norm_num
  refine ⟨⟨?_, ?_⟩, ⟨rfl, rfl⟩, ?_, ?_⟩
  · rw [hs]
  · rw [hs]
  · intro surf
    rw [hs]
    simp [draw_sprite]
  · intro b hb
    rw [hs]
    simp only [arcade_check_image_collision]
    rw [if_neg (by simp [hb])]
    dsimp only
    simp only [add_zero]
    split_ifs with hc
    · exact iff_of_true rfl hc
    · exact iff_of_false (by norm_num) hc

/-- Witness for claim C10 at the always-failing oracle and a concrete
overlapping active partner sprite. -/
theorem C10_failed_creation_witness :
    ((arcade_create_image_sprite c10Oracle 0 0 8 8 (some "x")).pixels =
        none ∧
     (arcade_create_image_sprite c10Oracle 0 0 8 8 (some "x")).active =
        1) ∧
    ((arcade_create_image_sprite c10Oracle 0 0 8 8 none).pixels = none ∧
     (arcade_create_image_sprite c10Oracle 0 0 8 8 none).active = 1) ∧
    (∀ surf, draw_sprite surf
        (some (ArcadeAnySprite.image_sprite
          (arcade_create_image_sprite c10Oracle 0 0 8 8 (some "x"))))
        SPRITE_IMAGE = surf) ∧
    (∀ b, b.active ≠ 0 →
      (arcade_check_image_collision
          (some (arcade_create_image_sprite c10Oracle 0 0 8 8
            (some "x")))
          (some b) = 1 ↔
        ((0 : ℚ) < b.x + b.width ∧ (0 : ℚ) > b.x ∧
         (0 : ℚ) < b.y + b.height ∧ (0 : ℚ) > b.y))) :=
  C10_failed_creation c10Oracle 0 0 8 8 "x" rfl


lemma stepRect_cases (g : ℚ) (H : ℤ) (s : ArcadeSprite) :
    stepRect g H s = if s.active = 0 then s else moveSpriteBody s g H := by
  unfold stepRect
  simp only [move_sprite]
  split_ifs <;> rfl

lemma stepRect_height (g : ℚ) (H : ℤ) (s : ArcadeSprite) :
    (stepRect g H s).height = s.height := by
  rw [stepRect_cases]
  split_ifs <;> rfl

lemma stepRect_active (g : ℚ) (H : ℤ) (s : ArcadeSprite) :
    (stepRect g H s).active = s.active := by
  rw [stepRect_cases]
  split_ifs <;> rfl

lemma stepRect_iter_height (g : ℚ) (H : ℤ) (s : ArcadeSprite) (n : ℕ) :
    ((stepRect g H)^[n] s).height = s.height := by
  induction n with
  | zero => rfl
  | succ n ih => rw [Function.iterate_succ_apply', stepRect_height, ih]

lemma stepRect_iter_active (g : ℚ) (H : ℤ) (s : ArcadeSprite) (n : ℕ) :
    ((stepRect g H)^[n] s).active = s.active := by
  induction n with
  | zero => rfl
  | succ n ih => rw [Function.iterate_succ_apply', stepRect_active, ih]

lemma stepRect_y_range (g : ℚ) (H : ℤ) (s : ArcadeSprite)
    (hact : s.active ≠ 0) (hh : s.height ≤ (H : ℚ)) :
    0 ≤ (stepRect g H s).y ∧ (stepRect g H s).y ≤ (H : ℚ) - s.height := by
  rw [stepRect_cases, if_neg hact]
  unfold moveSpriteBody
  dsimp only
  split_ifs with h1 h2 h3 <;> dsimp only at * <;> constructor <;> linarith

lemma stepRect_absorb (g : ℚ) (H : ℤ) (s : ArcadeSprite)
    (hact : s.active ≠ 0) (hh : s.height ≤ (H : ℚ)) (hg : 0 < g)
    (hy : s.y = (H : ℚ) - s.height) (hv : s.vy = 0) :
    (stepRect g H s).y = (H : ℚ) - s.height ∧
    (stepRect g H s).vy = 0 := by
  rw [stepRect_cases, if_neg hact]
  unfold moveSpriteBody
  dsimp only
  split_ifs with h1 h2 h3
  · exfalso
    dsimp only at *
    linarith
  · exfalso
    dsimp only at *
    linarith
  · dsimp only at *
    constructor <;> linarith
  · exfalso
    dsimp only at *
    linarith

lemma stepRect_progress (g : ℚ) (H : ℤ) (s : ArcadeSprite)
    (hact : s.active ≠ 0) (hh : s.height ≤ (H : ℚ)) (hg : 0 < g)
    (hy0 : 0 ≤ s.y) (hyB : s.y ≤ (H : ℚ) - s.height) (hv : 0 ≤ s.vy) :
    ((stepRect g H s).y = (H : ℚ) - s.height ∧
      (stepRect g H s).vy = 0) ∨
    ((stepRect g H s).y ≤ (H : ℚ) - s.height ∧
      s.y + g ≤ (stepRect g H s).y ∧ 0 ≤ (stepRect g H s).vy) := by
  rw [stepRect_cases, if_neg hact]
  unfold moveSpriteBody
  dsimp only
  split_ifs with h1 h2 h3
  · exfalso
    dsimp only at *
    linarith
  · exfalso
    dsimp only at *
    linarith
  · left
    dsimp only at *
    constructor <;> linarith
  · right
    dsimp only at *
    refine ⟨?_, ?_, ?_⟩ <;> linarith

lemma stepRect_vy_cases (g : ℚ) (H : ℤ) (s : ArcadeSprite)
    (hact : s.active ≠ 0) (hh : s.height ≤ (H : ℚ)) (hg : 0 < g)
    (hy0 : 0 ≤ s.y) (hyB : s.y ≤ (H : ℚ) - s.height) :
    ((stepRect g H s).y = (H : ℚ) - s.height ∧
      (stepRect g H s).vy = 0) ∨
    (0 ≤ (stepRect g H s).y ∧
      (stepRect g H s).y ≤ (H : ℚ) - s.height ∧
      ((stepRect g H s).vy = 0 ∨ (stepRect g H s).vy = s.vy + g)) := by
  rw [stepRect_cases, if_neg hact]
  unfold moveSpriteBody
  dsimp only
  split_ifs with h1 h2 h3
  · left
    dsimp only at *
    constructor <;> linarith
  · right
    dsimp only at *
    refine ⟨by linarith, by linarith, ?_⟩
    left
    rfl
  · left
    dsimp only at *
    constructor <;> linarith
  · right
    dsimp only at *
    refine ⟨by linarith, by linarith, ?_⟩
    right
    rfl


lemma stepRect_phase1 (g : ℚ) (H : ℤ) (s : ArcadeSprite)
    (hact : s.active ≠ 0) (hh : s.height ≤ (H : ℚ)) (hg : 0 < g)
    (hy0 : 0 ≤ s.y) (hyB : s.y ≤ (H : ℚ) - s.height) (n : ℕ) :
    (∃ k ≤ n, ((stepRect g H)^[k] s).y = (H : ℚ) - s.height ∧
      ((stepRect g H)^[k] s).vy = 0) ∨
    (0 ≤ ((stepRect g H)^[n] s).y ∧
      ((stepRect g H)^[n] s).y ≤ (H : ℚ) - s.height ∧
      min 0 (s.vy + n * g) ≤ ((stepRect g H)^[n] s).vy) := by
  induction n with
  | zero =>
      right
      refine ⟨hy0, hyB, ?_⟩
      simp
  | succ n ih =>
      rcases ih with ⟨k, hk, hdone⟩ | ⟨ih1, ih2, ih3⟩
      · exact Or.inl ⟨k, le_trans hk (Nat.le_succ n), hdone⟩
      · have hacts : ((stepRect g H)^[n] s).active ≠ 0 := by
          rw [stepRect_iter_active]
          exact hact
        have hhs : ((stepRect g H)^[n] s).height ≤ (H : ℚ) := by
          rw [stepRect_iter_height]
          exact hh
        have hBs : (H : ℚ) - ((stepRect g H)^[n] s).height =
            (H : ℚ) - s.height := by
          rw [stepRect_iter_height]
        have hstep := stepRect_vy_cases g H ((stepRect g H)^[n] s) hacts
          hhs hg ih1 (by rw [hBs]; exact ih2)
        rw [hBs] at hstep
        have heq : stepRect g H ((stepRect g H)^[n] s) =
            (stepRect g H)^[n + 1] s :=
          (Function.iterate_succ_apply' (stepRect g H) n s).symm
        rw [heq] at hstep
        rcases hstep with ⟨hy, hv⟩ | ⟨h1, h2, h3⟩
        · exact Or.inl ⟨n + 1, le_refl _, hy, hv⟩
        · right
          refine ⟨h1, h2, ?_⟩
          rcases h3 with h3 | h3
          · rw [h3]
            exact min_le_left _ _
          · rw [h3]
            have hmin : min (0 : ℚ) (s.vy + ((n : ℚ) + 1) * g) ≤
                min 0 (s.vy + (n : ℚ) * g) + g := by
              rcases le_or_lt 0 (s.vy + (n : ℚ) * g) with hc | hc
              · rw [min_eq_left hc]
                have h5 : min (0 : ℚ) (s.vy + ((n : ℚ) + 1) * g) ≤ 0 :=
                  min_le_left _ _
                linarith
              · rw [min_eq_right hc.le]
                have h5 : min (0 : ℚ) (s.vy + ((n : ℚ) + 1) * g) ≤
                    s.vy + ((n : ℚ) + 1) * g := min_le_right _ _
                have h6 : s.vy + ((n : ℚ) + 1) * g =
                    s.vy + (n : ℚ) * g + g := by ring
                linarith
            push_cast
            linarith [hmin, ih3]

lemma stepRect_phase2 (g : ℚ) (H : ℤ) (s : ArcadeSprite)
    (hact : s.active ≠ 0) (hh : s.height ≤ (H : ℚ)) (hg : 0 < g)
    (hy0 : 0 ≤ s.y) (hyB : s.y ≤ (H : ℚ) - s.height) (hv : 0 ≤ s.vy)
    (n : ℕ) :
    (∃ k ≤ n, ((stepRect g H)^[k] s).y = (H : ℚ) - s.height ∧
      ((stepRect g H)^[k] s).vy = 0) ∨
    (0 ≤ ((stepRect g H)^[n] s).y ∧
      ((stepRect g H)^[n] s).y ≤ (H : ℚ) - s.height ∧
      0 ≤ ((stepRect g H)^[n] s).vy ∧
      s.y + n * g ≤ ((stepRect g H)^[n] s).y) := by
  induction n with
  | zero =>
      right
      refine ⟨hy0, hyB, hv, by simp⟩
  | succ n ih =>
      rcases ih with ⟨k, hk, hdone⟩ | ⟨ih1, ih2, ih3, ih4⟩
      · exact Or.inl ⟨k, le_trans hk (Nat.le_succ n), hdone⟩
      · have hacts : ((stepRect g H)^[n] s).active ≠ 0 := by
          rw [stepRect_iter_active]
          exact hact
        have hhs : ((stepRect g H)^[n] s).height ≤ (H : ℚ) := by
          rw [stepRect_iter_height]
          exact hh
        have hBs : (H : ℚ) - ((stepRect g H)^[n] s).height =
            (H : ℚ) - s.height := by
          rw [stepRect_iter_height]
        have hstep := stepRect_progress g H ((stepRect g H)^[n] s) hacts
          hhs hg ih1 (by rw [hBs]; exact ih2) ih3
        rw [hBs] at hstep
        have heq : stepRect g H ((stepRect g H)^[n] s) =
            (stepRect g H)^[n + 1] s :=
          (Function.iterate_succ_apply' (stepRect g H) n s).symm
        rw [heq] at hstep
        rcases hstep with ⟨hy, hv2⟩ | ⟨h1, h2, h3⟩
        · exact Or.inl ⟨n + 1, le_refl _, hy, hv2⟩
        · right
          refine ⟨by linarith, h1, h3, ?_⟩
          push_cast
          linarith [ih4]

lemma stepRect_reaches_floor (g : ℚ) (H : ℤ) (s : ArcadeSprite)
    (hact : s.active ≠ 0) (hh : s.height ≤ (H : ℚ)) (hg : 0 < g) :
    ∃ M : ℕ, ((stepRect g H)^[M] s).y = (H : ℚ) - s.height ∧
      ((stepRect g H)^[M] s).vy = 0 := by
  set t1 := stepRect g H s with ht1
  have ht1it : t1 = (stepRect g H)^[1] s := rfl
  have hact1 : t1.active ≠ 0 := by
    rw [ht1, stepRect_active]
    exact hact
  have hht1 : t1.height = s.height := by
    rw [ht1, stepRect_height]
  have hrange := stepRect_y_range g H s hact hh
  have hy0 : 0 ≤ t1.y := hrange.1
  have hyB : t1.y ≤ (H : ℚ) - t1.height := by
    rw [hht1]
    exact hrange.2
  obtain ⟨n1, hn1⟩ := exists_nat_gt ((-t1.vy) / g)
  have hvpos : 0 ≤ t1.vy + n1 * g := by
    have := (div_lt_iff₀ hg).mp hn1
    linarith
  rcases stepRect_phase1 g H t1 hact1 (by rw [hht1]; exact hh) hg hy0 hyB
      n1 with ⟨k, _, hdone⟩ | ⟨p1, p2, p3⟩
  · refine ⟨k + 1, ?_, ?_⟩
    · rw [Function.iterate_add_apply (stepRect g H) k 1 s, ← ht1it] at *
      rw [hht1] at hdone
      exact hdone.1
    · rw [Function.iterate_add_apply (stepRect g H) k 1 s, ← ht1it]
      exact hdone.2
  · set t2 := (stepRect g H)^[n1] t1 with ht2
    have hact2 : t2.active ≠ 0 := by
      rw [ht2, stepRect_iter_active]
      exact hact1
    have hht2 : t2.height = t1.height := by
      rw [ht2, stepRect_iter_height]
    have hv2 : 0 ≤ t2.vy := by
      have hm : min (0 : ℚ) (t1.vy + n1 * g) = 0 := min_eq_left hvpos
      rw [hm] at p3
      exact p3
    have hyB2 : t2.y ≤ (H : ℚ) - t2.height := by
      rw [hht2, hht1]
      rw [hht1] at p2
      exact p2
    obtain ⟨n2, hn2⟩ := exists_nat_gt (((H : ℚ) - t2.height - t2.y) / g)
    rcases stepRect_phase2 g H t2 hact2 (by rw [hht2, hht1]; exact hh) hg
        p1 hyB2 hv2 n2 with ⟨k2, _, hdone⟩ | ⟨q1, q2, q3, q4⟩
    · refine ⟨k2 + n1 + 1, ?_, ?_⟩
      · have hsplit : (stepRect g H)^[k2 + n1 + 1] s =
            (stepRect g H)^[k2] t2 := by
          rw [Function.iterate_add_apply (stepRect g H) (k2 + n1) 1 s,
            ← ht1it, Function.iterate_add_apply (stepRect g H) k2 n1 t1,
            ← ht2]
        rw [hsplit]
        rw [hht2, hht1] at hdone
        exact hdone.1
      · have hsplit : (stepRect g H)^[k2 + n1 + 1] s =
            (stepRect g H)^[k2] t2 := by
          rw [Function.iterate_add_apply (stepRect g H) (k2 + n1) 1 s,
            ← ht1it, Function.iterate_add_apply (stepRect g H) k2 n1 t1,
            ← ht2]
        rw [hsplit]
        exact hdone.2
    · exfalso
      have hlt : ((H : ℚ) - t2.height - t2.y) < n2 * g :=
        (div_lt_iff₀ hg).mp hn2
      rw [hht2, hht1] at hlt q2
      linarith


lemma stepRect_stays_floor (g : ℚ) (H : ℤ) (t : ArcadeSprite)
    (hact : t.active ≠ 0) (hh : t.height ≤ (H : ℚ)) (hg : 0 < g)
    (hy : t.y = (H : ℚ) - t.height) (hv : t.vy = 0) (m : ℕ) :
    ((stepRect g H)^[m] t).y = (H : ℚ) - t.height ∧
    ((stepRect g H)^[m] t).vy = 0 := by
  induction m with
  | zero => exact ⟨hy, hv⟩
  | succ m ih =>
      have hacts : ((stepRect g H)^[m] t).active ≠ 0 := by
        rw [stepRect_iter_active]
        exact hact
      have hhs : ((stepRect g H)^[m] t).height ≤ (H : ℚ) := by
        rw [stepRect_iter_height]
        exact hh
      have hys : ((stepRect g H)^[m] t).y =
          (H : ℚ) - ((stepRect g H)^[m] t).height := by
        rw [stepRect_iter_height]
        exact ih.1
      have habs := stepRect_absorb g H _ hacts hhs hg hys ih.2
      rw [Function.iterate_succ_apply']
      rw [stepRect_iter_height] at habs
      exact habs

/-- Claim C6: for an active sprite with `height ≤ window_height` under
gravity `g > 0`, finitely many kinematics updates reach
`y = window_height - height` with `vy = 0` exactly, and every further
update keeps them there (the floor is absorbing). -/
theorem C6_floor_absorbing (s : ArcadeSprite) (g : ℚ) (H : ℤ)
    (hact : s.active ≠ 0) (hg : 0 < g) (hh : s.height ≤ (H : ℚ)) :
    ∃ N : ℕ, ∀ n : ℕ, N ≤ n →
      ((stepRect g H)^[n] s).y = (H : ℚ) - s.height ∧
      ((stepRect g H)^[n] s).vy = 0 := by
  obtain ⟨M, hM⟩ := stepRect_reaches_floor g H s hact hh hg
  refine ⟨M, fun n hn => ?_⟩
  obtain ⟨m, rfl⟩ := Nat.exists_eq_add_of_le hn
  have hsplit : (stepRect g H)^[M + m] s =
      (stepRect g H)^[m] ((stepRect g H)^[M] s) := by
    rw [Nat.add_comm, Function.iterate_add_apply]
  rw [hsplit]
  set t := (stepRect g H)^[M] s with ht
  have hactt : t.active ≠ 0 := by
    rw [ht, stepRect_iter_active]
    exact hact
  have hht : t.height = s.height := by
    rw [ht, stepRect_iter_height]
  have hstay := stepRect_stays_floor g H t hactt (by rw [hht]; exact hh)
    hg (by rw [hht]; exact hM.1) hM.2 m
  rw [hht] at hstay
  exact hstay

/-- Witness for claim C6 at the claim's concrete scenario: a 50-by-50
rect sprite at (400, 300) with `vy = 0` under gravity 1/10 in a
600-tall surface eventually sits at `y = 550` with `vy = 0` forever. -/
theorem C6_floor_absorbing_witness :
    ∃ N : ℕ, ∀ n : ℕ, N ≤ n →
      ((stepRect (1/10) 600)^[n] c6Drop).y = 550 ∧
      ((stepRect (1/10) 600)^[n] c6Drop).vy = 0 := by
  have h := C6_floor_absorbing c6Drop (1/10) 600 (by decide)
    (by norm_num) (by norm_num [c6Drop])
  have he : ((600 : ℤ) : ℚ) - c6Drop.height = 550 := by
    norm_num [c6Drop]
  obtain ⟨N, hN⟩ := h
  refine ⟨N, fun n hn => ?_⟩
  rw [← he]
  exact hN n hn

end Arcade
